import Mathlib

/-! # Verification of the fuwari `CodeBlock` component

Shallow embedding of `src/features/theme/themes/fuwari/components/content/code-block.tsx`:
the fold/expand state machine, the height-measurement layout effect, the render-input
resolution (`highlightedHtml || fallback`), the copy handler with its revert timer, and
the emitted max-height style of the folding wrapper.

Conventions:
- DOM `scrollHeight` readings are natural numbers; a detached content ref
  (`contentRef.current === null`) is modelled as `none`.
- React `useState` cells become fields of `CodeBlockState`; an in-place prop/content
  change re-renders the same component instance, so the state cells persist and only
  the layout effect (whose dependency array is `[html]`) re-runs.
- `setTimeout` handles are modelled as absolute expiry times collected in a list;
  the source never stores or clears a handle, so scheduling appends to the list.
-/

/-- Threshold constant `FOLD_THRESHOLD = 400` (code-block.tsx line 43). -/
def FOLD_THRESHOLD : Nat := 400

/-- Props of the component (code-block.tsx lines 37-41): `code` is the raw snippet text,
`highlightedHtml` is the optional pre-highlighted markup (absent or empty triggers the
fallback). -/
structure CodeBlockProps where
  code : String
  language : Option String
  highlightedHtml : Option String
  deriving Repr, DecidableEq

/-- Fallback markup (code-block.tsx line 47): the template literal
`` `<pre class="...""><code>${code}</code></pre>` `` splices the raw `code` text between
two fixed pieces of markup, with no escaping. -/
def fallback (code : String) : String :=
  "<pre class=\"shiki font-mono text-sm leading-relaxed whitespace-pre-wrap text-(--fuwari-btn-content) bg-transparent! p-0 m-0 border-0\"><code>"
    ++ code ++ "</code></pre>"

/-- Spec-side constant: the fixed opening piece of the fallback markup. -/
def fallbackOpen : String :=
  "<pre class=\"shiki font-mono text-sm leading-relaxed whitespace-pre-wrap text-(--fuwari-btn-content) bg-transparent! p-0 m-0 border-0\"><code>"

/-- Spec-side constant: the fixed closing piece of the fallback markup. -/
def fallbackClose : String := "</code></pre>"

/-- Resolution of the displayed markup (code-block.tsx line 48):
`const html = highlightedHtml || fallback`. JavaScript `||` takes `highlightedHtml`
exactly when it is present and non-empty (an empty string is falsy). -/
def resolveHtml (code : String) (highlightedHtml : Option String) : String :=
  match highlightedHtml with
  | some h => if h.isEmpty then fallback code else h
  | none => fallback code

/-- The four `useState` cells of the component (code-block.tsx lines 50-53). -/
structure CodeBlockState where
  copied : Bool
  isCollapsed : Bool
  needsFolding : Bool
  contentHeight : Nat
  deriving Repr, DecidableEq

/-- Initial state (code-block.tsx lines 50-53): `useState(false)`, `useState(true)`,
`useState(false)`, `useState(0)`. -/
def initialState : CodeBlockState :=
  { copied := false, isCollapsed := true, needsFolding := false, contentHeight := 0 }

/-- Body of the `useLayoutEffect` (code-block.tsx lines 56-65). `currentRef` is
`none` when `contentRef.current` is null, otherwise `some scrollHeight`. When the
measured height exceeds `FOLD_THRESHOLD + 50` it sets `needsFolding` and records the
height; in every other case it leaves all state untouched. -/
def measureEffect (currentRef : Option Nat) (s : CodeBlockState) : CodeBlockState :=
  match currentRef with
  | none => s
  | some scrollHeight =>
      if scrollHeight > FOLD_THRESHOLD + 50 then
        { s with needsFolding := true, contentHeight := scrollHeight }
      else
        s

/-- The expand button is rendered only while `needsFolding` is true
(code-block.tsx line 161). -/
def expandButtonRendered (s : CodeBlockState) : Bool :=
  s.needsFolding

/-- The expand button is clickable only when it is rendered and not disabled:
`disabled={!isCollapsed}` (code-block.tsx line 172). -/
def expandButtonEnabled (s : CodeBlockState) : Bool :=
  s.needsFolding && s.isCollapsed

/-- Emitted `style.maxHeight` of the folding wrapper (code-block.tsx lines 134-138):
`undefined` (here `none`) unless `needsFolding`; otherwise `FOLD_THRESHOLD` while
collapsed and `contentHeight` once expanded. -/
def foldMaxHeight (s : CodeBlockState) : Option Nat :=
  if s.needsFolding then
    some (if s.isCollapsed then FOLD_THRESHOLD else s.contentHeight)
  else
    none

/-- Events that drive the component's state within one mounted instance. -/
inductive Event where
  /-- The layout effect runs after mount; the payload is the content ref reading. -/
  | measure (currentRef : Option Nat)
  /-- The underlying markup changes in place (`[html]` dependency), so the layout
  effect re-runs on the persisting state; payload as in `measure`. -/
  | contentChange (currentRef : Option Nat)
  /-- A click on the expand button (`onClick={() => setIsCollapsed(false)}`,
  code-block.tsx line 171); it has an effect only while the button is rendered
  and enabled. -/
  | expand
  /-- `handleCopy` runs (code-block.tsx lines 72-76); here only its synchronous
  `setCopied(true)` matters, the timer is modelled separately in `CopyTimers`. -/
  | copy
  deriving Repr, DecidableEq

/-- One step of the component: how each event transforms the state. -/
def step (s : CodeBlockState) (e : Event) : CodeBlockState :=
  match e with
  | Event.measure r => measureEffect r s
  | Event.contentChange r => measureEffect r s
  | Event.expand =>
      if expandButtonEnabled s then { s with isCollapsed := false } else s
  | Event.copy => { s with copied := true }

/-- Running a sequence of events from a state. -/
def run (s : CodeBlockState) (es : List Event) : CodeBlockState :=
  es.foldl step s

/-- A state is reachable when some event sequence leads to it from the mount state. -/
def Reachable (s : CodeBlockState) : Prop :=
  ∃ es : List Event, run initialState es = s

/-- Copy affordance with explicit timers: `copied` is the `useState(false)` cell and
`timers` holds the absolute expiry times of every pending `setTimeout` revert callback. -/
structure CopyTimers where
  copied : Bool
  timers : List Nat
  deriving Repr, DecidableEq

/-- Copy state at mount: `copied = false`, no pending timer. -/
def initialCopyTimers : CopyTimers :=
  { copied := false, timers := [] }

/-- `handleCopy` (code-block.tsx lines 72-76), invoked at absolute time `now`:
writes `code` to the clipboard (`navigator.clipboard.writeText(code)`, returned as the
first component), sets `copied` to true synchronously, and schedules
`setTimeout(() => setCopied(false), 2000)`. The source neither stores the timer
handle nor calls `clearTimeout`, so the new expiry time is appended to whatever
timers are already pending. -/
def handleCopy (code : String) (now : Nat) (m : CopyTimers) : String × CopyTimers :=
  (code, { copied := true, timers := m.timers ++ [now + 2000] })

/-- A pending revert callback with expiry time `t` fires: `setCopied(false)` runs and
that timer is consumed. Firing a time that is not pending changes nothing. -/
def fireRevert (t : Nat) (m : CopyTimers) : CopyTimers :=
  if t ∈ m.timers then { copied := false, timers := m.timers.erase t } else m

/-! ## Helper lemmas -/

/-- The layout effect never touches `isCollapsed` (it only ever calls `setNeedsFolding`
and `setContentHeight`). -/
theorem measureEffect_isCollapsed (r : Option Nat) (s : CodeBlockState) :
    (measureEffect r s).isCollapsed = s.isCollapsed := by
  cases r with
  | none => rfl
  | some h =>
      simp only [measureEffect]
      split <;> rfl

/-- The layout effect never touches `copied`. -/
theorem measureEffect_copied (r : Option Nat) (s : CodeBlockState) :
    (measureEffect r s).copied = s.copied := by
  cases r with
  | none => rfl
  | some h =>
      simp only [measureEffect]
      split <;> rfl

/-- No event ever sets `isCollapsed` back to true: the only write to that cell in the
whole component is `setIsCollapsed(false)` (code-block.tsx line 171). -/
theorem step_keeps_expanded (s : CodeBlockState) (e : Event)
    (h : s.isCollapsed = false) : (step s e).isCollapsed = false := by
  cases e with
  | measure r => rw [step, measureEffect_isCollapsed]; exact h
  | contentChange r => rw [step, measureEffect_isCollapsed]; exact h
  | expand =>
      simp only [step]
      split <;> simp [h]
  | copy => exact h

/-- Once expanded, a component instance stays expanded under any event sequence. -/
theorem run_keeps_expanded (es : List Event) (s : CodeBlockState)
    (h : s.isCollapsed = false) : (run s es).isCollapsed = false := by
  induction es generalizing s with
  | nil => exact h
  | cons e es ih => exact ih (step s e) (step_keeps_expanded s e h)

/-- The fallback markup splits as a fixed opening piece, the raw code, and a fixed
closing piece. -/
theorem fallback_split (code : String) :
    fallback code = fallbackOpen ++ code ++ fallbackClose := rfl

set_option maxRecDepth 2048 in
/-- The fallback markup is never equal to the raw code itself: the fixed wrapper
pieces make it strictly longer. -/
theorem fallback_ne_code (code : String) : fallback code ≠ code := by
  intro h
  have hl := congrArg String.length h
  simp only [fallback, String.length_append] at hl
  have h1 : (0 : Nat) <
      ("<pre class=\"shiki font-mono text-sm leading-relaxed whitespace-pre-wrap text-(--fuwari-btn-content) bg-transparent! p-0 m-0 border-0\"><code>" : String).length := by
    decide
  omega

/-! ## C1 — fold decision per measurement -/

/-- C1 counterexample: mount with content of height 1000, expand, then change the
content to one that measures 100 ≤ 450. The claim says this measurement leaves
`needsFolding` false and applies no height clamp; in fact `needsFolding` stays true
(the effect never resets it) and the wrapper keeps `maxHeight = 1000` from the stale
`contentHeight`, so the claimed conjunction is false at this input. -/
theorem measure_low_after_fold_violates_claim :
    ¬ ((run initialState [Event.measure (some 1000), Event.expand,
          Event.contentChange (some 100)]).needsFolding = false ∧
        foldMaxHeight (run initialState [Event.measure (some 1000), Event.expand,
          Event.contentChange (some 100)]) = none) := by decide

/-- C1 amended: for a measurement taken in the not-yet-folded collapsed state
(`needsFolding = false`, `isCollapsed = true` — in particular the first measurement
after mount): if `H > 450` the effect sets `needsFolding = true`, records
`contentHeight = H`, leaves the state collapsed, and the wrapper clamps to
`FOLD_THRESHOLD`; if `H ≤ 450` the state is untouched, `needsFolding` remains false
and no clamp is applied. (Measurements taken after an earlier fold decision do not
obey the `H ≤ 450` branch, since the effect never resets `needsFolding`.) -/
theorem measure_from_unfolded_state (s : CodeBlockState) (H : Nat)
    (hnf : s.needsFolding = false) (hc : s.isCollapsed = true) :
    (H > FOLD_THRESHOLD + 50 →
      measureEffect (some H) s = { s with needsFolding := true, contentHeight := H } ∧
      (measureEffect (some H) s).isCollapsed = true ∧
      (measureEffect (some H) s).needsFolding = true ∧
      foldMaxHeight (measureEffect (some H) s) = some FOLD_THRESHOLD) ∧
    (H ≤ FOLD_THRESHOLD + 50 →
      measureEffect (some H) s = s ∧
      (measureEffect (some H) s).needsFolding = false ∧
      foldMaxHeight (measureEffect (some H) s) = none) := by
  constructor
  · intro hH
    simp [measureEffect, hH, foldMaxHeight, hc]
  · intro hH
    have hnot : ¬ (H > FOLD_THRESHOLD + 50) := by omega
    simp [measureEffect, hnot, foldMaxHeight, hnf]

/-- C1 witness: the amended theorem applied at the mount state with `H = 1000`. -/
theorem measure_from_unfolded_state_witness :
    initialState.needsFolding = false ∧ initialState.isCollapsed = true ∧
    ((1000 > FOLD_THRESHOLD + 50 →
      measureEffect (some 1000) initialState =
        { initialState with needsFolding := true, contentHeight := 1000 } ∧
      (measureEffect (some 1000) initialState).isCollapsed = true ∧
      (measureEffect (some 1000) initialState).needsFolding = true ∧
      foldMaxHeight (measureEffect (some 1000) initialState) = some FOLD_THRESHOLD) ∧
    (1000 ≤ FOLD_THRESHOLD + 50 →
      measureEffect (some 1000) initialState = initialState ∧
      (measureEffect (some 1000) initialState).needsFolding = false ∧
      foldMaxHeight (measureEffect (some 1000) initialState) = none)) :=
  ⟨rfl, rfl, measure_from_unfolded_state initialState 1000 rfl rfl⟩

/-! ## C2 — content change and fold-state reset -/

/-- C2 counterexample: mount with content of height 1000, expand, then change the
content (new markup of height 1000). The claim says the fold state resets to
collapsed (`isCollapsed = true`); in fact the state cells persist across an in-place
content change and the instance stays expanded. -/
theorem content_change_keeps_expanded :
    (run initialState [Event.measure (some 1000), Event.expand,
        Event.contentChange (some 1000)]).isCollapsed = false := by decide

/-- C2 amended: a content change re-runs the measurement effect (its dependency array
is `[html]`) on the persisting state, but resets nothing: `isCollapsed` and `copied`
keep their previous values, and `needsFolding` is the old value OR-ed with the fresh
over-450 test — so it never reverts from true to false and a previously expanded
instance stays expanded. -/
theorem content_change_preserves_fold_state (s : CodeBlockState) (r : Option Nat) :
    (step s (Event.contentChange r)).isCollapsed = s.isCollapsed ∧
    (step s (Event.contentChange r)).copied = s.copied ∧
    (step s (Event.contentChange r)).needsFolding =
      (s.needsFolding || (match r with
        | some h => decide (h > FOLD_THRESHOLD + 50)
        | none => false)) := by
  refine ⟨measureEffect_isCollapsed r s, measureEffect_copied r s, ?_⟩
  cases r with
  | none => simp [step, measureEffect]
  | some h =>
      by_cases hh : h > FOLD_THRESHOLD + 50
      · simp [step, measureEffect, hh]
      · simp [step, measureEffect, hh]

/-! ## C3 — copy revert timer -/

/-- C3 counterexample: copy at time 0 and again at time 1500. The claim says at most
one revert timer is ever pending and `copied` stays true until at least 1500 + 2000;
in fact two timers are pending (the source never cancels the old one), and when the
first fires at time 2000 `copied` becomes false — 1500 ms before the claimed earliest
revert. -/
theorem copy_timers_stack :
    ¬ ((handleCopy "x" 1500 (handleCopy "x" 0 initialCopyTimers).2).2.timers.length ≤ 1) ∧
    (fireRevert 2000 (handleCopy "x" 1500 (handleCopy "x" 0 initialCopyTimers).2).2).copied
      = false ∧
    2000 < 1500 + 2000 := by decide

/-- C3 amended: `handleCopy` sets `copied` true synchronously and schedules a fresh
2000 ms revert timer, but does not cancel any pending one: every previously pending
expiry time is still pending afterwards, the new expiry `now + 2000` is added, and
when any still-pending earlier timer fires, `copied` reverts to false — possibly
sooner than 2000 ms after the latest invocation. -/
theorem handleCopy_stacks_timers (code : String) (now t : Nat) (m : CopyTimers)
    (ht : t ∈ m.timers) :
    (handleCopy code now m).2.copied = true ∧
    t ∈ (handleCopy code now m).2.timers ∧
    now + 2000 ∈ (handleCopy code now m).2.timers ∧
    (fireRevert t (handleCopy code now m).2).copied = false := by
  have hmem : t ∈ m.timers ++ [now + 2000] := List.mem_append_left _ ht
  refine ⟨rfl, hmem, ?_, ?_⟩
  · simp [handleCopy]
  · simp [fireRevert, handleCopy, hmem]

/-- C3 witness: the amended theorem applied to a state with one pending timer
(expiry 2000, from a copy at time 0) and a second copy at time 1500. -/
theorem handleCopy_stacks_timers_witness :
    2000 ∈ ({ copied := true, timers := [2000] } : CopyTimers).timers ∧
    ((handleCopy "x" 1500 { copied := true, timers := [2000] }).2.copied = true ∧
     2000 ∈ (handleCopy "x" 1500 { copied := true, timers := [2000] }).2.timers ∧
     1500 + 2000 ∈ (handleCopy "x" 1500 { copied := true, timers := [2000] }).2.timers ∧
     (fireRevert 2000 (handleCopy "x" 1500 { copied := true, timers := [2000] }).2).copied
       = false) :=
  ⟨by decide, handleCopy_stacks_timers "x" 1500 2000 { copied := true, timers := [2000] }
    (by decide)⟩

/-! ## C4 — emitted max-height rule -/

/-- C4: in every reachable state the emitted max-height of the code region is
`none` (natural height) when `needsFolding` is false, `FOLD_THRESHOLD = 400` when
folding and collapsed, and the recorded `contentHeight` when folding and expanded;
and in the concrete scenario of measured height 1000, the collapsed view clamps
to 400 and the expanded view to 1000. -/
theorem foldMaxHeight_rule (s : CodeBlockState) (_hs : Reachable s) :
    foldMaxHeight s = (match s.needsFolding, s.isCollapsed with
      | false, _ => none
      | true, true => some FOLD_THRESHOLD
      | true, false => some s.contentHeight) ∧
    foldMaxHeight (run initialState [Event.measure (some 1000)]) = some 400 ∧
    foldMaxHeight (run initialState [Event.measure (some 1000), Event.expand]) = some 1000 := by
  refine ⟨?_, by decide, by decide⟩
  cases hnf : s.needsFolding <;> cases hic : s.isCollapsed <;>
    simp [foldMaxHeight, hnf, hic]

/-- C4 witness: the rule applied at the reachable state just after a measurement of
height 1000. -/
theorem foldMaxHeight_rule_witness :
    (foldMaxHeight (run initialState [Event.measure (some 1000)]) =
      (match (run initialState [Event.measure (some 1000)]).needsFolding,
             (run initialState [Event.measure (some 1000)]).isCollapsed with
        | false, _ => none
        | true, true => some FOLD_THRESHOLD
        | true, false => some (run initialState [Event.measure (some 1000)]).contentHeight) ∧
    foldMaxHeight (run initialState [Event.measure (some 1000)]) = some 400 ∧
    foldMaxHeight (run initialState [Event.measure (some 1000), Event.expand]) = some 1000) :=
  foldMaxHeight_rule (run initialState [Event.measure (some 1000)])
    ⟨[Event.measure (some 1000)], rfl⟩

/-! ## C5 — expand is idempotent-terminal -/

/-- C5: from any foldable collapsed state, the wrapper clamps to `FOLD_THRESHOLD`;
one expand click moves the clamp to the recorded `contentHeight`; a second expand
click is a no-op (the state is unchanged); the expand control is disabled once
expanded; and no subsequent event sequence ever returns the instance to collapsed. -/
theorem expand_idempotent_terminal (s : CodeBlockState) (es : List Event)
    (hf : s.needsFolding = true) (hc : s.isCollapsed = true) :
    foldMaxHeight s = some FOLD_THRESHOLD ∧
    (step s Event.expand).isCollapsed = false ∧
    foldMaxHeight (step s Event.expand) = some s.contentHeight ∧
    step (step s Event.expand) Event.expand = step s Event.expand ∧
    expandButtonEnabled (step s Event.expand) = false ∧
    (run (step s Event.expand) es).isCollapsed = false := by
  have hstep : step s Event.expand = { s with isCollapsed := false } := by
    simp [step, expandButtonEnabled, hf, hc]
  refine ⟨by simp [foldMaxHeight, hf, hc], by simp [hstep], by simp [hstep, foldMaxHeight, hf],
    ?_, by simp [hstep, expandButtonEnabled], ?_⟩
  · rw [hstep]
    simp [step, expandButtonEnabled]
  · exact run_keeps_expanded es (step s Event.expand) (by simp [hstep])

/-- C5 witness: the theorem applied at the state measured at height 1000, with a
subsequent event sequence that tries a copy, a re-measurement and another expand. -/
theorem expand_idempotent_terminal_witness :
    (run initialState [Event.measure (some 1000)]).needsFolding = true ∧
    (run initialState [Event.measure (some 1000)]).isCollapsed = true ∧
    (foldMaxHeight (run initialState [Event.measure (some 1000)]) = some FOLD_THRESHOLD ∧
     (step (run initialState [Event.measure (some 1000)]) Event.expand).isCollapsed = false ∧
     foldMaxHeight (step (run initialState [Event.measure (some 1000)]) Event.expand) =
       some (run initialState [Event.measure (some 1000)]).contentHeight ∧
     step (step (run initialState [Event.measure (some 1000)]) Event.expand) Event.expand =
       step (run initialState [Event.measure (some 1000)]) Event.expand ∧
     expandButtonEnabled (step (run initialState [Event.measure (some 1000)]) Event.expand)
       = false ∧
     (run (step (run initialState [Event.measure (some 1000)]) Event.expand)
        [Event.copy, Event.contentChange (some 2000), Event.expand]).isCollapsed = false) :=
  ⟨rfl, rfl, expand_idempotent_terminal (run initialState [Event.measure (some 1000)])
    [Event.copy, Event.contentChange (some 2000), Event.expand] rfl rfl⟩

/-! ## C6 — no folding means no clamp -/

/-- C6: whenever `needsFolding` is false the emitted max-height is `none` (the
displayed height is unclamped), whatever the value of `isCollapsed` — and since this
holds of every state with `needsFolding = false`, it holds after every operation
(mount, measurement, expand, copy, content change) that leaves `needsFolding` false. -/
theorem no_folding_no_clamp (s : CodeBlockState) (h : s.needsFolding = false) :
    foldMaxHeight s = none := by
  simp [foldMaxHeight, h]

/-- C6 witness: the invariant at the mount state. -/
theorem no_folding_no_clamp_witness :
    initialState.needsFolding = false ∧ foldMaxHeight initialState = none :=
  ⟨rfl, no_folding_no_clamp initialState rfl⟩

/-! ## C7 — render input resolution -/

/-- C7: the displayed markup is a pure function of `(code, highlightedHtml)`:
a non-empty `highlightedHtml` is used verbatim; an empty or absent one yields the
fallback, which is the fixed preformatted wrapper spliced around the literal `code`
text — string concatenation, so whitespace and line breaks of `code` are preserved
exactly. -/
theorem resolveHtml_spec (code m : String) (hm : m.isEmpty = false) :
    resolveHtml code (some m) = m ∧
    resolveHtml code none = fallback code ∧
    resolveHtml code (some "") = fallback code ∧
    fallback code = fallbackOpen ++ code ++ fallbackClose := by
  refine ⟨?_, rfl, rfl, fallback_split code⟩
  simp [resolveHtml, hm]

/-- C7 witness: the resolution rule at a multi-line snippet with a concrete
non-empty highlighted markup. -/
theorem resolveHtml_spec_witness :
    ("<span>x</span>" : String).isEmpty = false ∧
    (resolveHtml "a\nb\nc" (some "<span>x</span>") = "<span>x</span>" ∧
     resolveHtml "a\nb\nc" none = fallback "a\nb\nc" ∧
     resolveHtml "a\nb\nc" (some "") = fallback "a\nb\nc" ∧
     fallback "a\nb\nc" = fallbackOpen ++ "a\nb\nc" ++ fallbackClose) :=
  ⟨rfl, resolveHtml_spec "a\nb\nc" "<span>x</span>" rfl⟩

/-! ## C8 — copy writes the raw code -/

/-- C8: `handleCopy` passes exactly the raw `code` string to the clipboard
collaborator — never the fallback markup nor the resolved displayed markup of an
unhighlighted snippet, both of which differ from `code` for every snippet. -/
theorem handleCopy_writes_raw_code (code : String) (now : Nat) (m : CopyTimers) :
    (handleCopy code now m).1 = code ∧
    (handleCopy code now m).1 ≠ fallback code ∧
    (handleCopy code now m).1 ≠ resolveHtml code none := by
  refine ⟨rfl, ?_, ?_⟩
  · intro h
    exact fallback_ne_code code h.symm
  · intro h
    exact fallback_ne_code code h.symm

/-! ## C9 — detached ref makes measurement a no-op -/

/-- C9: when the content ref is null the measurement effect changes nothing (it is a
total function, so it cannot throw; `needsFolding` and `contentHeight` keep their
values, so no zero or garbage height is recorded and no false no-folding result
exists); a later content change re-runs the effect, and a fresh reading of 1000 after
a failed mount-time reading still enables folding. -/
theorem measure_null_ref_noop (s : CodeBlockState) :
    measureEffect none s = s ∧
    step s (Event.measure none) = s ∧
    (run initialState [Event.measure none]) = initialState ∧
    (run initialState [Event.measure none, Event.contentChange (some 1000)]).needsFolding
      = true ∧
    (run initialState [Event.measure none, Event.contentChange (some 1000)]).contentHeight
      = 1000 := by
  exact ⟨rfl, rfl, by decide, by decide, by decide⟩

/-! ## C10 — fallback is raw concatenation, no escaping -/

set_option maxRecDepth 8192 in
/-- C10: the fallback markup is the exact concatenation of the fixed
`<pre ...><code>` opening piece, the raw code text, and the fixed `</code></pre>`
closing piece, with no escaping of HTML-special characters: code containing
`</code>` or `<script>` is spliced in verbatim. -/
theorem fallback_raw_concatenation :
    (∀ code : String, fallback code = fallbackOpen ++ code ++ fallbackClose) ∧
    fallback "</code><script>alert(1)</script>" =
      fallbackOpen ++ "</code><script>alert(1)</script>" ++ fallbackClose ∧
    fallback "</code><script>alert(1)</script>" =
      "<pre class=\"shiki font-mono text-sm leading-relaxed whitespace-pre-wrap text-(--fuwari-btn-content) bg-transparent! p-0 m-0 border-0\"><code></code><script>alert(1)</script></code></pre>" := by
  refine ⟨fallback_split, rfl, ?_⟩
  decide
